import Mathlib

/-!
Shallow embedding of the Ollama provider core of the Plexus repository
(`src/model_providers/ollama/provider.py`, `config.py`, `utils.py`, and
`src/model_providers/base_provider.py`), together with theorems settling
the specification claims about it.

Python floats are modelled as rationals, Python ints as integers,
optional/absent JSON fields as `Option`, raised exceptions as the error
branch of `Except`, and the newline-delimited streaming bodies as lists
of already-split lines.
-/

namespace Plexus

/-- Model of a dynamically typed Python value as it occurs in the wire
payloads built by the provider (floats as rationals). -/
inductive PyVal where
  | float (q : ℚ)
  | int (n : ℤ)
  | str (s : String)
  | strList (l : List String)
  deriving DecidableEq

/-- The Python exception classes the provider code can raise:
`RuntimeError`, `ValueError`, and `utils.ConnectionError`. -/
inductive PyError where
  | runtimeError (msg : String)
  | valueError (msg : String)
  | connectionError (msg : String)
  deriving DecidableEq

/-- Whether an exception is the `ConnectionError` class from `utils.py`. -/
def PyError.isConnectionError : PyError → Bool
  | .connectionError _ => true
  | _ => false

/-- Metadata dictionary attached to a final stream chunk
(`provider.py` lines 229-237 and 365-374). A JSON field that is absent
is modelled as `none`, the same as a key present with value `None`;
the chat endpoint never populates `context`. -/
structure StreamMeta where
  created_at : Option String := none
  total_duration : Option ℤ := none
  load_duration : Option ℤ := none
  prompt_eval_count : Option ℤ := none
  prompt_eval_duration : Option ℤ := none
  eval_count : Option ℤ := none
  eval_duration : Option ℤ := none
  context : Option (List ℤ) := none
  deriving DecidableEq

/-- The `StreamChunk` dataclass of `base_provider.py`. -/
structure StreamChunk where
  content : String
  is_final : Bool
  metadata : Option StreamMeta
  deriving DecidableEq

/-- The fields of one parsed JSON line of a streaming `/api/chat` body
that `_stream_chat_response` reads. `message_content` is the value at
`data["message"]["content"]` when both keys are present. -/
structure ChatStreamData where
  message_content : Option String := none
  done : Option Bool := none
  created_at : Option String := none
  total_duration : Option ℤ := none
  load_duration : Option ℤ := none
  prompt_eval_count : Option ℤ := none
  prompt_eval_duration : Option ℤ := none
  eval_count : Option ℤ := none
  eval_duration : Option ℤ := none
  deriving DecidableEq

/-- One raw line of a streaming chat body: falsy (empty) lines, lines on
which `json.loads` raises `JSONDecodeError`, and well-parsed lines. -/
inductive ChatLine where
  | empty
  | malformed
  | data (d : ChatStreamData)
  deriving DecidableEq

/-- The chunk `_stream_chat_response` yields for one parsed line
(`provider.py` lines 223-243): `content = data.get("message", \x7b\x7d).get("content", "")`,
`is_final = data.get("done", False)`, metadata only on the final line. -/
def chatChunk (d : ChatStreamData) : StreamChunk :=
  { content := d.message_content.getD "",
    is_final := d.done.getD false,
    metadata :=
      if d.done.getD false then
        some { created_at := d.created_at,
               total_duration := d.total_duration,
               load_duration := d.load_duration,
               prompt_eval_count := d.prompt_eval_count,
               prompt_eval_duration := d.prompt_eval_duration,
               eval_count := d.eval_count,
               eval_duration := d.eval_duration }
      else none }

/-- Per-line behaviour of the chat stream loop: empty lines are skipped
(`if line:`), malformed lines are skipped (`except json.JSONDecodeError:
continue`), parsed lines yield a chunk. -/
def decodeChatLine : ChatLine → Option StreamChunk
  | .empty => none
  | .malformed => none
  | .data d => some (chatChunk d)

/-- `OllamaProvider._stream_chat_response` (lines 209-250): the loop
`async for line in response.content` visits every line of the body in
arrival order; there is no early exit, so the yielded chunks are exactly
the decodable lines' chunks. -/
def streamChatResponse (lines : List ChatLine) : List StreamChunk :=
  lines.filterMap decodeChatLine

/-- The fields of one parsed JSON line of a streaming `/api/generate`
body that `_stream_completion_response` reads; the text lives in the
top-level `response` field and the final line also carries `context`. -/
structure CompletionStreamData where
  response : Option String := none
  done : Option Bool := none
  created_at : Option String := none
  total_duration : Option ℤ := none
  load_duration : Option ℤ := none
  prompt_eval_count : Option ℤ := none
  prompt_eval_duration : Option ℤ := none
  eval_count : Option ℤ := none
  eval_duration : Option ℤ := none
  context : Option (List ℤ) := none
  deriving DecidableEq

/-- One raw line of a streaming completion body. -/
inductive CompletionLine where
  | empty
  | malformed
  | data (d : CompletionStreamData)
  deriving DecidableEq

/-- The chunk `_stream_completion_response` yields for one parsed line
(`provider.py` lines 359-380). -/
def completionChunk (d : CompletionStreamData) : StreamChunk :=
  { content := d.response.getD "",
    is_final := d.done.getD false,
    metadata :=
      if d.done.getD false then
        some { created_at := d.created_at,
               total_duration := d.total_duration,
               load_duration := d.load_duration,
               prompt_eval_count := d.prompt_eval_count,
               prompt_eval_duration := d.prompt_eval_duration,
               eval_count := d.eval_count,
               eval_duration := d.eval_duration,
               context := d.context }
      else none }

/-- Per-line behaviour of the completion stream loop. -/
def decodeCompletionLine : CompletionLine → Option StreamChunk
  | .empty => none
  | .malformed => none
  | .data d => some (completionChunk d)

/-- `OllamaProvider._stream_completion_response` (lines 345-387). -/
def streamCompletionResponse (lines : List CompletionLine) : List StreamChunk :=
  lines.filterMap decodeCompletionLine

/-- The `done` flag a chat line carries once decoded
(`data.get("done", False)`); undecodable lines count as not final. -/
def chatLineFinal : ChatLine → Bool
  | .data d => d.done.getD false
  | _ => false

/-- The `done` flag a completion line carries once decoded. -/
def completionLineFinal : CompletionLine → Bool
  | .data d => d.done.getD false
  | _ => false

/-- The mutable state of an `OllamaProvider`: whether `self.session` is
an open `aiohttp` session (`true`) or `None` (`false`), and the
`is_available` flag inherited from `BaseModelProvider`. -/
structure ProviderState where
  session : Bool
  is_available : Bool
  deriving DecidableEq

/-- State of a freshly constructed, never-initialized provider:
`BaseModelProvider.__init__` sets `is_available = False` and
`OllamaProvider.__init__` sets `self.session = None`. -/
def freshProvider : ProviderState :=
  { session := false, is_available := false }

/-- `OllamaProvider.close` (lines 550-555): closes and drops the
session and clears `is_available`. -/
def close (_st : ProviderState) : ProviderState :=
  { session := false, is_available := false }

/-- `OllamaProvider.initialize` (lines 51-75), parametrised by the
outcome of the `list_models()` liveness probe it performs over the newly
opened session: on success it keeps the session and sets
`is_available = True`, returning `True`; on any exception it sets
`is_available = False`, closes and drops the session, and returns
`False` instead of raising. -/
def initProvider (probe : Except PyError (List String)) (_st : ProviderState) :
    Bool × ProviderState :=
  match probe with
  | .ok _ => (true, { session := true, is_available := true })
  | .error _ => (false, { session := false, is_available := false })

/-- The `MessageRole` enum of `base_provider.py`. -/
inductive MessageRole where
  | system
  | user
  | assistant
  | tool
  deriving DecidableEq

/-- The `.value` attribute of a `MessageRole` member. -/
def MessageRole.value : MessageRole → String
  | .system => "system"
  | .user => "user"
  | .assistant => "assistant"
  | .tool => "tool"

/-- The `ChatMessage` dataclass of `base_provider.py`; `tool_calls`
entries are dictionaries of Python values. -/
structure ChatMessage where
  role : MessageRole
  content : String
  images : Option (List String) := none
  tool_calls : Option (List (List (String × PyVal))) := none
  deriving DecidableEq

/-- The `ModelParameters` dataclass of `base_provider.py`, with its
Python default values (`temperature=0.7`, `top_p=0.9`, `stream=True`). -/
structure ModelParameters where
  temperature : ℚ := 7/10
  top_p : ℚ := 9/10
  top_k : Option ℤ := none
  max_tokens : Option ℤ := none
  stream : Bool := true
  stop_sequences : Option (List String) := none
  seed : Option ℤ := none
  extra_params : Option (List (String × PyVal)) := none
  deriving DecidableEq

/-- Python truthiness of an optional list: `None` and `[]` are falsy. -/
def truthyList {α : Type} : Option (List α) → Bool
  | none => false
  | some l => !l.isEmpty

/-- One message dictionary of the wire payload (`provider.py` lines
130-140): `images` and `tool_calls` keys are added only when truthy. -/
structure OllamaMessage where
  role : String
  content : String
  images : Option (List String)
  tool_calls : Option (List (List (String × PyVal)))
  deriving DecidableEq

/-- Conversion of one `ChatMessage` to its wire dictionary. -/
def toOllamaMessage (m : ChatMessage) : OllamaMessage :=
  { role := m.role.value,
    content := m.content,
    images := if truthyList m.images then m.images else none,
    tool_calls := if truthyList m.tool_calls then m.tool_calls else none }

/-- Python `d[k] = v` on an insertion-ordered dictionary modelled as an
association list: an existing key keeps its position and gets the new
value, a new key is appended. -/
def dictSet (d : List (String × PyVal)) (k : String) (v : PyVal) :
    List (String × PyVal) :=
  if d.any (fun p => p.1 = k) then
    d.map (fun p => if p.1 = k then (k, v) else p)
  else d ++ [(k, v)]

/-- Python `d.update(ex)`: sets every key of `ex` in order. -/
def dictUpdate (d ex : List (String × PyVal)) : List (String × PyVal) :=
  ex.foldl (fun acc p => dictSet acc p.1 p.2) d

/-- The conditional inserts into the `options` dictionary performed by
`generate_chat` (lines 151-161) and identically by `generate_completion`
(lines 286-296), before the `extra_params` merge: `temperature` and
`top_p` only when they differ from the dataclass defaults, `top_k` and
`seed` only when not `None`, `stop` only when the list is truthy. -/
def baseOptions (params : ModelParameters) : List (String × PyVal) :=
  (if params.temperature ≠ 7/10 then [("temperature", PyVal.float params.temperature)] else []) ++
  (if params.top_p ≠ 9/10 then [("top_p", PyVal.float params.top_p)] else []) ++
  (match params.top_k with
    | some k => [("top_k", PyVal.int k)]
    | none => []) ++
  (match params.seed with
    | some s => [("seed", PyVal.int s)]
    | none => []) ++
  (match params.stop_sequences with
    | some l => if l.isEmpty then [] else [("stop", PyVal.strList l)]
    | none => [])

/-- The full `options` dictionary: the base inserts followed by
`options.update(params.extra_params)` when `extra_params` is truthy
(lines 163-164 and 298-299). -/
def buildOptions (params : ModelParameters) : List (String × PyVal) :=
  match params.extra_params with
  | some ex => if ex.isEmpty then baseOptions params else dictUpdate (baseOptions params) ex
  | none => baseOptions params

/-- The `options` key of the payload: present only when the dictionary
is truthy, i.e. non-empty (`if options: payload["options"] = options`,
lines 166-167 and 301-302). -/
def payloadOptions (params : ModelParameters) : Option (List (String × PyVal)) :=
  let o := buildOptions params
  if o.isEmpty then none else some o

/-- The request payload `generate_chat` builds (lines 142-167). -/
structure ChatPayload where
  model : String
  messages : List OllamaMessage
  stream : Bool
  keep_alive : String
  options : Option (List (String × PyVal))
  deriving DecidableEq

/-- The request payload `generate_completion` builds (lines 277-302). -/
structure CompletionPayload where
  model : String
  prompt : String
  stream : Bool
  keep_alive : String
  options : Option (List (String × PyVal))
  deriving DecidableEq

/-- `OllamaProvider.generate_chat` (lines 104-172) up to the point where
it dispatches the built payload to the buffered or streaming helper:
with no session it raises `RuntimeError`, with an empty message list it
raises `ValueError`, otherwise it resolves `parameters or
ModelParameters()` and returns the payload it will post. -/
def generate_chat (st : ProviderState) (messages : List ChatMessage)
    (model : String) (parameters : Option ModelParameters) (keep_alive : String) :
    Except PyError ChatPayload :=
  if st.session = false then
    .error (.runtimeError "Provider not initialized")
  else if messages.isEmpty then
    .error (.valueError "Messages list cannot be empty")
  else
    let params := parameters.getD {}
    .ok { model := model,
          messages := messages.map toOllamaMessage,
          stream := params.stream,
          keep_alive := keep_alive,
          options := payloadOptions params }

/-- `OllamaProvider.generate_completion` (lines 252-307) up to dispatch:
with no session it raises `RuntimeError`, with a falsy (empty) prompt it
raises `ValueError`, otherwise it returns the payload it will post. -/
def generate_completion (st : ProviderState) (prompt : String)
    (model : String) (parameters : Option ModelParameters) (keep_alive : String) :
    Except PyError CompletionPayload :=
  if st.session = false then
    .error (.runtimeError "Provider not initialized")
  else if prompt.isEmpty then
    .error (.valueError "Prompt cannot be empty")
  else
    let params := parameters.getD {}
    .ok { model := model,
          prompt := prompt,
          stream := params.stream,
          keep_alive := keep_alive,
          options := payloadOptions params }

/-- The token-usage dictionary of a `ModelResponse`. -/
structure TokenUsage where
  prompt_tokens : ℤ
  completion_tokens : ℤ
  total_tokens : ℤ
  deriving DecidableEq

/-- The metadata dictionary of a buffered `ModelResponse`; the chat
endpoint never populates `context`. -/
structure RespMeta where
  created_at : Option String := none
  total_duration : Option ℤ := none
  load_duration : Option ℤ := none
  prompt_eval_duration : Option ℤ := none
  eval_duration : Option ℤ := none
  context : Option (List ℤ) := none
  deriving DecidableEq

/-- The `ModelResponse` dataclass of `base_provider.py`, with the
fields `_get_chat_response` and `_get_completion_response` fill in. -/
structure ModelResponse where
  content : String
  model : String
  role : MessageRole
  finish_reason : Option String
  token_usage : TokenUsage
  metadata : RespMeta
  deriving DecidableEq

/-- The fields of a parsed non-streaming `/api/chat` body that
`_get_chat_response` reads; `message_content` and `model` are accessed
with mandatory indexing (`data["message"]["content"]`, `data["model"]`)
and so are required. -/
structure ChatRespData where
  message_content : String
  model : String
  done_reason : Option String := none
  prompt_eval_count : Option ℤ := none
  eval_count : Option ℤ := none
  created_at : Option String := none
  total_duration : Option ℤ := none
  load_duration : Option ℤ := none
  prompt_eval_duration : Option ℤ := none
  eval_duration : Option ℤ := none
  deriving DecidableEq

/-- The HTTP outcome of one POST as the provider observes it: a 200
response with a parsed JSON body, a non-200 response with its error
text, or an `aiohttp.ClientError` from the transport. -/
inductive HttpOutcome (α : Type) where
  | success (d : α)
  | failure (status : ℕ) (text : String)
  | netError (msg : String)
  deriving DecidableEq

/-- `OllamaProvider._get_chat_response` (lines 174-207), parametrised by
the observed HTTP outcome: token counts default to 0 when the server
omits them and `total_tokens` is computed as their sum; non-200 and
transport failures are re-raised as `RuntimeError`. -/
def get_chat_response (resp : HttpOutcome ChatRespData) : Except PyError ModelResponse :=
  match resp with
  | .success d =>
    .ok { content := d.message_content,
          model := d.model,
          role := .assistant,
          finish_reason := d.done_reason,
          token_usage :=
            { prompt_tokens := d.prompt_eval_count.getD 0,
              completion_tokens := d.eval_count.getD 0,
              total_tokens := d.prompt_eval_count.getD 0 + d.eval_count.getD 0 },
          metadata :=
            { created_at := d.created_at,
              total_duration := d.total_duration,
              load_duration := d.load_duration,
              prompt_eval_duration := d.prompt_eval_duration,
              eval_duration := d.eval_duration } }
  | .failure status text =>
    .error (.runtimeError ("Chat request failed: HTTP " ++ toString status ++ " - " ++ text))
  | .netError msg =>
    .error (.runtimeError ("Network error during chat: " ++ msg))

/-- The fields of a parsed non-streaming `/api/generate` body that
`_get_completion_response` reads. -/
structure CompletionRespData where
  response : String
  model : String
  done_reason : Option String := none
  prompt_eval_count : Option ℤ := none
  eval_count : Option ℤ := none
  created_at : Option String := none
  total_duration : Option ℤ := none
  load_duration : Option ℤ := none
  prompt_eval_duration : Option ℤ := none
  eval_duration : Option ℤ := none
  context : Option (List ℤ) := none
  deriving DecidableEq

/-- `OllamaProvider._get_completion_response` (lines 309-343). -/
def get_completion_response (resp : HttpOutcome CompletionRespData) :
    Except PyError ModelResponse :=
  match resp with
  | .success d =>
    .ok { content := d.response,
          model := d.model,
          role := .assistant,
          finish_reason := d.done_reason,
          token_usage :=
            { prompt_tokens := d.prompt_eval_count.getD 0,
              completion_tokens := d.eval_count.getD 0,
              total_tokens := d.prompt_eval_count.getD 0 + d.eval_count.getD 0 },
          metadata :=
            { created_at := d.created_at,
              total_duration := d.total_duration,
              load_duration := d.load_duration,
              prompt_eval_duration := d.prompt_eval_duration,
              eval_duration := d.eval_duration,
              context := d.context } }
  | .failure status text =>
    .error (.runtimeError ("Generate request failed: HTTP " ++ toString status ++ " - " ++ text))
  | .netError msg =>
    .error (.runtimeError ("Network error during completion: " ++ msg))

/-- The buffered `generate_chat` call end to end, also accounting for
how many HTTP requests reach the network and for the provider state
after the call (the method never mutates `self`): validation failures
return before the POST, so the request count is `0` there and `1` once
`_get_chat_response` posts the payload. -/
def generate_chatRun (st : ProviderState) (messages : List ChatMessage)
    (model : String) (parameters : Option ModelParameters) (keep_alive : String)
    (env : HttpOutcome ChatRespData) :
    Except PyError ModelResponse × ℕ × ProviderState :=
  match generate_chat st messages model parameters keep_alive with
  | .error e => (.error e, 0, st)
  | .ok _ => (get_chat_response env, 1, st)

/-- The buffered `generate_completion` call end to end, with the same
network-request accounting as `generate_chatRun`. -/
def generate_completionRun (st : ProviderState) (prompt : String)
    (model : String) (parameters : Option ModelParameters) (keep_alive : String)
    (env : HttpOutcome CompletionRespData) :
    Except PyError ModelResponse × ℕ × ProviderState :=
  match generate_completion st prompt model parameters keep_alive with
  | .error e => (.error e, 0, st)
  | .ok _ => (get_completion_response env, 1, st)

/-- The fields of a parsed `/api/embed` body that `generate_embeddings`
reads: `data.get("embeddings", [])`. -/
structure EmbedRespData where
  embeddings : Option (List (List ℚ)) := none
  deriving DecidableEq

/-- `OllamaProvider.generate_embeddings` (lines 389-435), parametrised
by the observed HTTP outcome of the one batched POST, returning the
result together with the number of HTTP requests made and the provider
state after the call: no session raises `RuntimeError` and an empty
text list raises `ValueError`, both before the POST; on a 200 response
a count mismatch between inputs and returned vectors raises
`RuntimeError`, otherwise the server's vectors are returned as is. -/
def generate_embeddings (st : ProviderState) (texts : List String)
    (_model : String) (env : HttpOutcome EmbedRespData) :
    Except PyError (List (List ℚ)) × ℕ × ProviderState :=
  if st.session = false then
    (.error (.runtimeError "Provider not initialized"), 0, st)
  else if texts.isEmpty then
    (.error (.valueError "Texts list cannot be empty"), 0, st)
  else
    match env with
    | .success d =>
      let embeddings := d.embeddings.getD []
      if embeddings.length ≠ texts.length then
        (.error (.runtimeError
          ("Expected " ++ toString texts.length ++ " embeddings, got " ++
            toString embeddings.length)), 1, st)
      else
        (.ok embeddings, 1, st)
    | .failure status text =>
      (.error (.runtimeError
        ("Embedding request failed: HTTP " ++ toString status ++ " - " ++ text)), 1, st)
    | .netError msg =>
      (.error (.runtimeError ("Network error during embedding generation: " ++ msg)), 1, st)

/-- The `OllamaConfig` dataclass of `config.py` with its defaults. -/
structure OllamaConfig where
  base_url : String := "http://localhost:11434"
  timeout : ℤ := 300
  keep_alive : String := "5m"
  max_retries : ℤ := 3
  retry_delay : ℚ := 1
  default_temperature : ℚ := 7/10
  default_top_p : ℚ := 9/10
  default_stream : Bool := true
  verify_ssl : Bool := true
  custom_headers : List (String × String) := []
  deriving DecidableEq

/-- `OllamaConfig.validate` (`config.py` lines 90-118): checks the
invariants in source order, raising `ValueError` with the message of the
first violated check, and returns `True` when all pass. -/
def OllamaConfig.validate (c : OllamaConfig) : Except String Bool :=
  if c.base_url.isEmpty then .error "base_url cannot be empty"
  else if c.timeout ≤ 0 then .error "timeout must be positive"
  else if c.max_retries < 0 then .error "max_retries cannot be negative"
  else if c.retry_delay < 0 then .error "retry_delay cannot be negative"
  else if ¬(0 ≤ c.default_temperature ∧ c.default_temperature ≤ 2) then
    .error "default_temperature must be between 0.0 and 2.0"
  else if ¬(0 ≤ c.default_top_p ∧ c.default_top_p ≤ 1) then
    .error "default_top_p must be between 0.0 and 1.0"
  else .ok true

/-- The loop body of `retry_with_exponential_backoff` (`utils.py` lines
317-333), with the attempted operation modelled as a function from the
attempt index to its outcome and the `exceptions` allow-list as a
predicate: returns the final outcome, the number of attempts made, and
the list of back-off delays slept, in order. An exception outside the
allow-list is not caught and propagates at once; when the allow-listed
attempts are exhausted the last exception is re-raised. -/
def retryGo {E A : Type} (func : ℕ → Except E A) (allowed : E → Bool)
    (base_delay max_delay : ℚ) : (attempt remaining : ℕ) → Except E A × ℕ × List ℚ
  | attempt, 0 =>
    match func attempt with
    | .ok a => (.ok a, 1, [])
    | .error e => (.error e, 1, [])
  | attempt, r + 1 =>
    match func attempt with
    | .ok a => (.ok a, 1, [])
    | .error e =>
      if allowed e then
        let d := min (base_delay * 2 ^ attempt) max_delay
        let rest := retryGo func allowed base_delay max_delay (attempt + 1) r
        (rest.1, rest.2.1 + 1, d :: rest.2.2)
      else (.error e, 1, [])

/-- `retry_with_exponential_backoff` (`utils.py` lines 294-333):
`for attempt in range(max_retries + 1)` starting at attempt 0. -/
def retry_with_exponential_backoff {E A : Type} (func : ℕ → Except E A)
    (max_retries : ℕ) (base_delay max_delay : ℚ) (allowed : E → Bool) :
    Except E A × ℕ × List ℚ :=
  retryGo func allowed base_delay max_delay 0 max_retries

/-- A sample user message used to instantiate theorems on concrete
inputs. -/
def sampleMessage : ChatMessage :=
  { role := .user, content := "hi" }

/-- Sample generation parameters with a non-default temperature and an
explicit seed, used to instantiate the payload theorems. -/
def sampleParams : ModelParameters :=
  { temperature := 1, seed := some 42 }

/-- A stream line whose parsed body is exactly `\x7b"done": true\x7d`. -/
def sampleChatDone : ChatStreamData :=
  { done := some true }

/-- A completion stream line whose parsed body is `\x7b"done": true\x7d`. -/
def sampleCompletionDone : CompletionStreamData :=
  { done := some true }

/-- An `OllamaConfig` violating every single field invariant at once. -/
def badConfig : OllamaConfig :=
  { base_url := "", timeout := 0, max_retries := -1, retry_delay := -1,
    default_temperature := 3, default_top_p := 2 }

section StreamLemmas

/-- A chunk yielded for a chat line carries that line's `done` flag. -/
theorem decodeChatLine_isFinal (l : ChatLine) (c : StreamChunk)
    (h : decodeChatLine l = some c) : c.is_final = chatLineFinal l := by
  cases l with
  | empty => simp [decodeChatLine] at h
  | malformed => simp [decodeChatLine] at h
  | data d =>
    simp only [decodeChatLine, Option.some.injEq] at h
    subst h
    rfl

/-- A chunk yielded for a completion line carries that line's `done`
flag. -/
theorem decodeCompletionLine_isFinal (l : CompletionLine) (c : StreamChunk)
    (h : decodeCompletionLine l = some c) : c.is_final = completionLineFinal l := by
  cases l with
  | empty => simp [decodeCompletionLine] at h
  | malformed => simp [decodeCompletionLine] at h
  | data d =>
    simp only [decodeCompletionLine, Option.some.injEq] at h
    subst h
    rfl

/-- Shape of a decoded stream whose body ends at its unique final line:
one final chunk, in last position, all earlier chunks non-final. -/
theorem filterMap_final_shape {L : Type} (decode : L → Option StreamChunk)
    (lf : L → Bool) (hdec : ∀ l c, decode l = some c → c.is_final = lf l)
    (xs : List L) (l : L) (c : StreamChunk)
    (hxs : ∀ x ∈ xs, lf x = false) (hl : decode l = some c) (hc : c.is_final = true) :
    ((xs ++ [l]).filterMap decode).countP (fun ch => ch.is_final) = 1 ∧
    ((xs ++ [l]).filterMap decode).getLast?.map StreamChunk.is_final = some true ∧
    ∀ ch ∈ ((xs ++ [l]).filterMap decode).dropLast, ch.is_final = false := by
  have hfm : (xs ++ [l]).filterMap decode = xs.filterMap decode ++ [c] := by
    simp [List.filterMap_append, List.filterMap_cons, hl]
  have hpre : ∀ ch ∈ xs.filterMap decode, ch.is_final = false := by
    intro ch hch
    rcases List.mem_filterMap.mp hch with ⟨x, hx, hdx⟩
    rw [hdec x ch hdx]
    exact hxs x hx
  refine ⟨?_, ?_, ?_⟩
  · rw [hfm, List.countP_append]
    have h1 : (xs.filterMap decode).countP (fun ch => ch.is_final) = 0 := by
      rw [List.countP_eq_zero]
      intro a ha
      simp [hpre a ha]
    simp [h1, List.countP_cons, hc]
  · rw [hfm, List.getLast?_concat]
    simp [hc]
  · rw [hfm, List.dropLast_concat]
    exact hpre

end StreamLemmas

/-- C1 is refuted on the code: `_stream_chat_response` has no early exit
after yielding the chunk of a `done = true` line, so on a body that has
a decodable line after the final line the decoder keeps reading and
yields further chunks — here a final chunk followed by a non-final one,
so the unique final chunk is not last and the sequence does not
terminate at the `done` line; and a body with two `done = true` lines
yields two final chunks. -/
theorem c1_counterexample :
    streamChatResponse
        [ChatLine.data { done := some true }, ChatLine.data { message_content := some "x" }] =
      [{ content := "", is_final := true, metadata := some {} },
       { content := "x", is_final := false, metadata := none }] ∧
    (streamChatResponse
        [ChatLine.data { done := some true }, ChatLine.data { message_content := some "x" }]).getLast?.map
        StreamChunk.is_final = some false ∧
    (streamChatResponse
        [ChatLine.data { done := some true }, ChatLine.data { done := some true }]).countP
        (fun ch => ch.is_final) = 2 := by
  refine ⟨rfl, rfl, rfl⟩

/-- C1 (amended): every decodable line yields exactly one chunk whose
`is_final` equals the line's `done` flag, and the decoder reads the
body to exhaustion instead of stopping at the `done = true` line; when
the `done = true` line is the last line of the body (as the server
delivers it), exactly one chunk has `is_final = true`, it is the last
chunk produced, and all prior chunks have `is_final = false` — for both
the chat and the completion stream. -/
theorem c1_amended (xs : List ChatLine) (d : ChatStreamData)
    (ys : List CompletionLine) (g : CompletionStreamData)
    (hxs : ∀ l ∈ xs, chatLineFinal l = false) (hd : d.done = some true)
    (hys : ∀ l ∈ ys, completionLineFinal l = false) (hg : g.done = some true) :
    ((streamChatResponse (xs ++ [ChatLine.data d])).countP (fun ch => ch.is_final) = 1 ∧
     (streamChatResponse (xs ++ [ChatLine.data d])).getLast?.map StreamChunk.is_final =
       some true ∧
     ∀ ch ∈ (streamChatResponse (xs ++ [ChatLine.data d])).dropLast, ch.is_final = false) ∧
    ((streamCompletionResponse (ys ++ [CompletionLine.data g])).countP
        (fun ch => ch.is_final) = 1 ∧
     (streamCompletionResponse (ys ++ [CompletionLine.data g])).getLast?.map
        StreamChunk.is_final = some true ∧
     ∀ ch ∈ (streamCompletionResponse (ys ++ [CompletionLine.data g])).dropLast,
       ch.is_final = false) := by
  constructor
  · exact filterMap_final_shape decodeChatLine chatLineFinal decodeChatLine_isFinal
      xs (ChatLine.data d) (chatChunk d) hxs rfl
      (by simp [chatChunk, hd])
  · exact filterMap_final_shape decodeCompletionLine completionLineFinal
      decodeCompletionLine_isFinal ys (CompletionLine.data g) (completionChunk g) hys rfl
      (by simp [completionChunk, hg])

/-- Witness for the amended C1 on a concrete two-line chat body and a
concrete one-line completion body. -/
theorem c1_witness :
    ((streamChatResponse ([ChatLine.data {}] ++ [ChatLine.data sampleChatDone])).countP
        (fun ch => ch.is_final) = 1 ∧
     (streamChatResponse ([ChatLine.data {}] ++ [ChatLine.data sampleChatDone])).getLast?.map
        StreamChunk.is_final = some true ∧
     ∀ ch ∈ (streamChatResponse ([ChatLine.data {}] ++ [ChatLine.data sampleChatDone])).dropLast,
       ch.is_final = false) ∧
    ((streamCompletionResponse ([] ++ [CompletionLine.data sampleCompletionDone])).countP
        (fun ch => ch.is_final) = 1 ∧
     (streamCompletionResponse ([] ++ [CompletionLine.data sampleCompletionDone])).getLast?.map
        StreamChunk.is_final = some true ∧
     ∀ ch ∈ (streamCompletionResponse
        ([] ++ [CompletionLine.data sampleCompletionDone])).dropLast, ch.is_final = false) :=
  c1_amended [ChatLine.data {}] sampleChatDone [] sampleCompletionDone
    (by intro l hl; simp at hl; subst hl; rfl) rfl (by simp) rfl

/-- C3: a malformed JSON line anywhere in a streaming body is skipped
without raising and without ending the stream — the decoded chunk
sequence is exactly that of the same body with the malformed line
removed — and a body of well-parsed lines yields exactly one chunk per
line, in arrival order; for both the chat and the completion stream. -/
theorem c3_malformed_skipped :
    (∀ xs ys : List ChatLine,
      streamChatResponse (xs ++ ChatLine.malformed :: ys) = streamChatResponse (xs ++ ys)) ∧
    (∀ ds : List ChatStreamData,
      streamChatResponse (ds.map ChatLine.data) = ds.map chatChunk) ∧
    (∀ xs ys : List CompletionLine,
      streamCompletionResponse (xs ++ CompletionLine.malformed :: ys) =
        streamCompletionResponse (xs ++ ys)) ∧
    (∀ ds : List CompletionStreamData,
      streamCompletionResponse (ds.map CompletionLine.data) = ds.map completionChunk) := by
  refine ⟨?_, ?_, ?_, ?_⟩
  · intro xs ys
    simp [streamChatResponse, List.filterMap_append, List.filterMap_cons, decodeChatLine]
  · intro ds
    have hcomp : decodeChatLine ∘ ChatLine.data = some ∘ chatChunk := funext fun _ => rfl
    simp [streamChatResponse, List.filterMap_map, hcomp, List.filterMap_eq_map]
  · intro xs ys
    simp [streamCompletionResponse, List.filterMap_append, List.filterMap_cons,
      decodeCompletionLine]
  · intro ds
    have hcomp : decodeCompletionLine ∘ CompletionLine.data = some ∘ completionChunk :=
      funext fun _ => rfl
    simp [streamCompletionResponse, List.filterMap_map, hcomp, List.filterMap_eq_map]

/-- C2 is refuted on the code: on a freshly constructed, never
initialized provider, `generate_chat` raises
`RuntimeError("Provider not initialized")` — plain `RuntimeError`, not
the `ConnectionError` class defined in `utils.py`, which `provider.py`
never raises. -/
theorem c2_counterexample :
    (generate_chatRun freshProvider [sampleMessage] "llama3" none "5m"
        (.netError "no route")).1 =
      .error (.runtimeError "Provider not initialized") ∧
    PyError.isConnectionError (.runtimeError "Provider not initialized") = false :=
  ⟨rfl, rfl⟩

/-- C2 (amended): on any provider whose session is not open (freshly
constructed or closed), `generate_chat` fails with
`RuntimeError("Provider not initialized")` before any network call,
leaving the state unchanged; and after `close()` the provider has
`is_available = false` and no session, so further operations fail the
same way. -/
theorem c2_amended : ∀ (b : Bool) (messages : List ChatMessage) (model : String)
    (parameters : Option ModelParameters) (keep_alive : String)
    (env : HttpOutcome ChatRespData) (st : ProviderState),
    generate_chatRun { session := false, is_available := b } messages model parameters
        keep_alive env =
      (.error (.runtimeError "Provider not initialized"), 0,
        { session := false, is_available := b }) ∧
    (close st).is_available = false ∧ (close st).session = false := by
  intro b messages model parameters keep_alive env st
  exact ⟨rfl, rfl, rfl⟩

/-- C8: on an initialized provider, `generate_chat` with an empty
message list, `generate_completion` with an empty prompt, and
`generate_embeddings` with an empty text list each fail with a
`ValueError` while making zero network requests and leaving the
provider state unchanged. -/
theorem c8_empty_inputs : ∀ (b : Bool) (model : String)
    (parameters : Option ModelParameters) (keep_alive : String)
    (envC : HttpOutcome ChatRespData) (envG : HttpOutcome CompletionRespData)
    (envE : HttpOutcome EmbedRespData),
    generate_chatRun { session := true, is_available := b } [] model parameters
        keep_alive envC =
      (.error (.valueError "Messages list cannot be empty"), 0,
        { session := true, is_available := b }) ∧
    generate_completionRun { session := true, is_available := b } "" model parameters
        keep_alive envG =
      (.error (.valueError "Prompt cannot be empty"), 0,
        { session := true, is_available := b }) ∧
    generate_embeddings { session := true, is_available := b } [] model envE =
      (.error (.valueError "Texts list cannot be empty"), 0,
        { session := true, is_available := b }) := by
  intro b model parameters keep_alive envC envG envE
  exact ⟨rfl, rfl, rfl⟩

/-- C9: `initialize` returns `true` with `is_available = true` exactly
when the model-list liveness probe succeeds; on any probe failure it
returns `false` instead of raising, drops the partially opened session,
and leaves `is_available = false`. -/
theorem c9_init_outcome : ∀ (ms : List String) (e : PyError) (st st' : ProviderState),
    initProvider (.ok ms) st = (true, { session := true, is_available := true }) ∧
    initProvider (.error e) st' = (false, { session := false, is_available := false }) := by
  intro ms e st st'
  exact ⟨rfl, rfl⟩

/-- C10: every buffered chat or completion response carries a
`token_usage` with `total_tokens = prompt_tokens + completion_tokens`,
each count defaulting to 0 when the server omits the corresponding
field. -/
theorem c10_token_usage : ∀ (d : ChatRespData) (g : CompletionRespData),
    (∃ mr : ModelResponse, get_chat_response (.success d) = .ok mr ∧
      mr.token_usage.prompt_tokens = d.prompt_eval_count.getD 0 ∧
      mr.token_usage.completion_tokens = d.eval_count.getD 0 ∧
      mr.token_usage.total_tokens =
        mr.token_usage.prompt_tokens + mr.token_usage.completion_tokens) ∧
    (∃ mr : ModelResponse, get_completion_response (.success g) = .ok mr ∧
      mr.token_usage.prompt_tokens = g.prompt_eval_count.getD 0 ∧
      mr.token_usage.completion_tokens = g.eval_count.getD 0 ∧
      mr.token_usage.total_tokens =
        mr.token_usage.prompt_tokens + mr.token_usage.completion_tokens) := by
  intro d g
  exact ⟨⟨_, rfl, rfl, rfl, rfl⟩, ⟨_, rfl, rfl, rfl, rfl⟩⟩

/-- C5: `validate()` succeeds exactly when `base_url` is non-empty,
`timeout > 0`, `max_retries ≥ 0`, `retry_delay ≥ 0`,
`default_temperature ∈ [0, 2]` and `default_top_p ∈ [0, 1]`; otherwise
it deterministically reports the first violated check in source order,
as shown on a configuration violating every invariant at once and on
one violating only the temperature range. -/
theorem c5_validate :
    (∀ c : OllamaConfig, c.validate = .ok true ↔
      (¬c.base_url.isEmpty ∧ 0 < c.timeout ∧ 0 ≤ c.max_retries ∧ 0 ≤ c.retry_delay ∧
        0 ≤ c.default_temperature ∧ c.default_temperature ≤ 2 ∧
        0 ≤ c.default_top_p ∧ c.default_top_p ≤ 1)) ∧
    badConfig.validate = .error "base_url cannot be empty" ∧
    OllamaConfig.validate { default_temperature := 3 } =
      .error "default_temperature must be between 0.0 and 2.0" := by
  refine ⟨?_, rfl, rfl⟩
  intro c
  unfold OllamaConfig.validate
  split_ifs with h1 h2 h3 h4 h5 h6 <;> simp_all

/-- C6: on a non-empty input list and a 200 response,
`generate_embeddings` returns the server's vectors unchanged (one per
input, same order) exactly when their count matches the input count,
and raises a `RuntimeError` naming both counts when it does not —
never truncating. -/
theorem c6_embeddings (texts : List String) (model : String) (es : List (List ℚ))
    (b : Bool) (h : texts ≠ []) :
    (es.length = texts.length →
      generate_embeddings { session := true, is_available := b } texts model
          (.success { embeddings := some es }) =
        (.ok es, 1, { session := true, is_available := b })) ∧
    (es.length ≠ texts.length →
      generate_embeddings { session := true, is_available := b } texts model
          (.success { embeddings := some es }) =
        (.error (.runtimeError ("Expected " ++ toString texts.length ++
            " embeddings, got " ++ toString es.length)), 1,
          { session := true, is_available := b })) := by
  have hne : texts.isEmpty = false := by
    simpa [List.isEmpty_iff] using h
  constructor <;> intro hlen <;>
    simp [generate_embeddings, hne, hlen]

/-- Witness for C6: three input texts against a 200 response carrying
only two vectors fail with the protocol error naming both counts. -/
theorem c6_witness :
    generate_embeddings { session := true, is_available := true } ["a", "b", "c"] "nomic"
        (.success { embeddings := some [[1], [2]] }) =
      (.error (.runtimeError "Expected 3 embeddings, got 2"), 1,
        { session := true, is_available := true }) :=
  (c6_embeddings ["a", "b", "c"] "nomic" [[1], [2]] true (by simp)).2 (by simp)

/-- Closed form of the retry loop when every attempt fails with an
allow-listed exception: starting at `attempt` with `r` retries left, it
makes `r + 1` attempts, sleeps `min(base * 2^a, max)` before each retry,
and ends with the outcome of the last attempt. -/
theorem retryGo_always_fails {E A : Type} (func : ℕ → Except E A) (allowed : E → Bool)
    (b m : ℚ) (h : ∀ n, ∃ e, func n = .error e ∧ allowed e = true) :
    ∀ (r attempt : ℕ), retryGo func allowed b m attempt r =
      (func (attempt + r), r + 1,
        (List.range r).map (fun i => min (b * 2 ^ (attempt + i)) m)) := by
  intro r
  induction r with
  | zero =>
    intro attempt
    obtain ⟨e, he, _⟩ := h attempt
    simp [retryGo, he]
  | succ r ih =>
    intro attempt
    obtain ⟨e, he, hal⟩ := h attempt
    have h1 : attempt + 1 + r = attempt + (r + 1) := by omega
    have hlist : (List.range (r + 1)).map (fun i => min (b * 2 ^ (attempt + i)) m) =
        min (b * 2 ^ attempt) m ::
          (List.range r).map (fun i => min (b * 2 ^ (attempt + 1 + i)) m) := by
      rw [List.range_succ_eq_map]
      simp only [List.map_cons, Nat.add_zero, List.map_map]
      congr 1
      apply List.map_congr_left
      intro i _
      simp only [Function.comp_apply, Nat.succ_eq_add_one]
      have hexp : attempt + (i + 1) = attempt + 1 + i := by omega
      rw [hexp]
    simp only [retryGo, he, hal, if_true]
    rw [ih (attempt + 1), hlist, h1]

/-- C7: when every attempt fails with an allow-listed exception,
`retry_with_exponential_backoff` makes exactly `max_retries + 1`
attempts, sleeping `min(base_delay * 2^attempt, max_delay)` before each
retry, and finishes by re-raising the exception of the last attempt. -/
theorem c7_backoff {E A : Type} (func : ℕ → Except E A) (allowed : E → Bool)
    (max_retries : ℕ) (base_delay max_delay : ℚ)
    (h : ∀ n, ∃ e, func n = .error e ∧ allowed e = true) :
    retry_with_exponential_backoff func max_retries base_delay max_delay allowed =
      (func max_retries, max_retries + 1,
        (List.range max_retries).map (fun a => min (base_delay * 2 ^ a) max_delay)) := by
  unfold retry_with_exponential_backoff
  rw [retryGo_always_fails func allowed _ _ h max_retries 0]
  simp

/-- Witness for C7: with `max_retries = 2` and `base_delay = 1`, an
always-failing operation is attempted exactly 3 times with delays of
1 and 2 seconds before the exception is re-raised. -/
theorem c7_witness :
    retry_with_exponential_backoff (fun _ : ℕ => (Except.error "boom" : Except String Unit))
        2 1 60 (fun _ => true) =
      (.error "boom", 3, [1, 2]) := by
  rw [c7_backoff _ _ 2 1 60 (fun _ => ⟨"boom", rfl, rfl⟩)]
  norm_num [List.range_succ]

section OptionsLemmas

/-- Setting a key in a Python dictionary adds exactly that key to the
key set. -/
theorem keys_dictSet (d : List (String × PyVal)) (k' : String) (v : PyVal) (k : String) :
    k ∈ (dictSet d k' v).map Prod.fst ↔ k ∈ d.map Prod.fst ∨ k = k' := by
  unfold dictSet
  by_cases hex : d.any (fun p => p.1 = k') = true
  · rw [if_pos hex]
    have hmap : (d.map (fun p => if p.1 = k' then (k', v) else p)).map Prod.fst =
        d.map Prod.fst := by
      rw [List.map_map]
      apply List.map_congr_left
      intro p _
      by_cases hpk : p.1 = k' <;> simp [hpk]
    rw [hmap]
    constructor
    · exact Or.inl
    · rintro (hk | rfl)
      · exact hk
      · rcases List.any_eq_true.mp hex with ⟨p, hp, hpk⟩
        rw [decide_eq_true_iff] at hpk
        exact List.mem_map.mpr ⟨p, hp, hpk⟩
  · rw [if_neg hex]
    simp

/-- Python `d.update(ex)` leaves exactly the union of both key sets. -/
theorem keys_dictUpdate (ex : List (String × PyVal)) :
    ∀ (d : List (String × PyVal)) (k : String),
      k ∈ (dictUpdate d ex).map Prod.fst ↔
        k ∈ d.map Prod.fst ∨ k ∈ ex.map Prod.fst := by
  induction ex with
  | nil => intro d k; simp [dictUpdate]
  | cons p rest ih =>
    intro d k
    have hstep : dictUpdate d (p :: rest) = dictUpdate (dictSet d p.1 p.2) rest := rfl
    rw [hstep, ih, keys_dictSet]
    simp only [List.map_cons, List.mem_cons]
    tauto

/-- Setting a key never produces the empty dictionary. -/
theorem dictSet_ne_nil (d : List (String × PyVal)) (k : String) (v : PyVal) :
    dictSet d k v ≠ [] := by
  unfold dictSet
  by_cases hex : d.any (fun p => p.1 = k) = true
  · rw [if_pos hex]
    rcases List.any_eq_true.mp hex with ⟨p, hp, _⟩
    simp only [ne_eq, List.map_eq_nil_iff]
    intro hnil
    rw [hnil] at hp
    exact List.not_mem_nil p hp
  · rw [if_neg hex]
    simp

/-- Updating with a non-empty dictionary never produces the empty
dictionary. -/
theorem dictUpdate_ne_nil (ex : List (String × PyVal)) (hex : ex ≠ []) :
    ∀ d : List (String × PyVal), dictUpdate d ex ≠ [] := by
  induction ex with
  | nil => exact absurd rfl hex
  | cons p rest ih =>
    intro d
    have hstep : dictUpdate d (p :: rest) = dictUpdate (dictSet d p.1 p.2) rest := rfl
    rw [hstep]
    rcases rest with _ | ⟨q, rest'⟩
    · simpa [dictUpdate] using dictSet_ne_nil d p.1 p.2
    · exact ih (List.cons_ne_nil q rest') (dictSet d p.1 p.2)

/-- The key set of the base `options` inserts. -/
theorem keys_baseOptions (params : ModelParameters) (k : String) :
    k ∈ (baseOptions params).map Prod.fst ↔
      ((k = "temperature" ∧ params.temperature ≠ 7/10) ∨
       (k = "top_p" ∧ params.top_p ≠ 9/10) ∨
       (k = "top_k" ∧ params.top_k ≠ none) ∨
       (k = "seed" ∧ params.seed ≠ none) ∨
       (k = "stop" ∧ params.stop_sequences.getD [] ≠ [])) := by
  unfold baseOptions
  rcases htk : params.top_k with _ | nk <;> rcases hsd : params.seed with _ | ns <;>
    rcases hss : params.stop_sequences with _ | sl <;>
    by_cases ht : params.temperature = 7/10 <;> by_cases hp : params.top_p = 9/10 <;>
    simp_all <;>
    rcases sl with _ | ⟨s, sl'⟩ <;> simp_all

/-- The base `options` dictionary is empty exactly when every typed
parameter is at its default or unset. -/
theorem baseOptions_eq_nil (params : ModelParameters) :
    baseOptions params = [] ↔
      (params.temperature = 7/10 ∧ params.top_p = 9/10 ∧ params.top_k = none ∧
       params.seed = none ∧ params.stop_sequences.getD [] = []) := by
  unfold baseOptions
  rcases htk : params.top_k with _ | nk <;> rcases hsd : params.seed with _ | ns <;>
    rcases hss : params.stop_sequences with _ | sl <;>
    by_cases ht : params.temperature = 7/10 <;> by_cases hp : params.top_p = 9/10 <;>
    simp_all

/-- The full `options` dictionary is empty exactly when the base
inserts are empty and `extra_params` is falsy. -/
theorem buildOptions_eq_nil (params : ModelParameters) :
    buildOptions params = [] ↔
      baseOptions params = [] ∧ params.extra_params.getD [] = [] := by
  unfold buildOptions
  rcases hep : params.extra_params with _ | ex
  · simp
  · by_cases hex : ex.isEmpty
    · rw [List.isEmpty_iff] at hex
      simp [hex]
    · have hemp : ex.isEmpty = false := Bool.eq_false_iff.mpr hex
      have hne : ex ≠ [] := by
        intro hnil
        rw [hnil] at hemp
        exact absurd hemp (by simp)
      simp only [hemp, Bool.false_eq_true, if_false, Option.getD_some]
      constructor
      · intro hupd
        exact absurd hupd (dictUpdate_ne_nil ex hne (baseOptions params))
      · rintro ⟨_, hnil⟩
        exact absurd hnil hne

/-- The key set of the full `options` dictionary. -/
theorem keys_buildOptions (params : ModelParameters) (k : String) :
    k ∈ (buildOptions params).map Prod.fst ↔
      (k ∈ (baseOptions params).map Prod.fst ∨
       k ∈ (params.extra_params.getD []).map Prod.fst) := by
  unfold buildOptions
  rcases hep : params.extra_params with _ | ex
  · simp
  · by_cases hex : ex.isEmpty
    · rw [List.isEmpty_iff] at hex
      simp [hex]
    · have hemp : ex.isEmpty = false := Bool.eq_false_iff.mpr hex
      simp only [hemp, Bool.false_eq_true, if_false, Option.getD_some]
      exact keys_dictUpdate ex (baseOptions params) k

/-- The payload's `options` value holds exactly the built dictionary. -/
theorem payloadOptions_getD (params : ModelParameters) :
    (payloadOptions params).getD [] = buildOptions params := by
  unfold payloadOptions
  by_cases h : (buildOptions params).isEmpty
  · rw [List.isEmpty_iff] at h
    simp [h]
  · have hemp : (buildOptions params).isEmpty = false := Bool.eq_false_iff.mpr h
    simp [hemp]

/-- The payload omits the `options` key exactly when the built
dictionary is empty. -/
theorem payloadOptions_eq_none (params : ModelParameters) :
    payloadOptions params = none ↔ buildOptions params = [] := by
  unfold payloadOptions
  by_cases h : (buildOptions params).isEmpty
  · rw [List.isEmpty_iff] at h
    simp [h]
  · have hemp : (buildOptions params).isEmpty = false := Bool.eq_false_iff.mpr h
    have hne : buildOptions params ≠ [] := by
      intro hnil
      rw [hnil] at hemp
      exact absurd hemp (by simp)
    simp [hemp, hne]

end OptionsLemmas

/-- C4: on an initialized provider with non-empty messages,
`generate_chat` builds exactly the payload posted to `/api/chat`, whose
`options` dictionary contains precisely the parameters differing from
the dataclass defaults or explicitly set — `temperature` iff it differs
from 0.7, `top_p` iff it differs from 0.9, `top_k` and `seed` iff set,
`stop` iff the stop list is non-empty, plus the passthrough
`extra_params` keys — and whose `options` key is omitted entirely when
no such parameter is present; unset fields never appear with a sentinel
value. -/
theorem c4_options_payload (params : ModelParameters) (messages : List ChatMessage)
    (model keep_alive : String) (h : messages ≠ []) :
    generate_chat { session := true, is_available := true } messages model (some params)
        keep_alive =
      .ok { model := model, messages := messages.map toOllamaMessage,
            stream := params.stream, keep_alive := keep_alive,
            options := payloadOptions params } ∧
    (∀ k : String, k ∈ ((payloadOptions params).getD []).map Prod.fst ↔
      ((k = "temperature" ∧ params.temperature ≠ 7/10) ∨
       (k = "top_p" ∧ params.top_p ≠ 9/10) ∨
       (k = "top_k" ∧ params.top_k ≠ none) ∨
       (k = "seed" ∧ params.seed ≠ none) ∨
       (k = "stop" ∧ params.stop_sequences.getD [] ≠ []) ∨
       k ∈ (params.extra_params.getD []).map Prod.fst)) ∧
    (payloadOptions params = none ↔
      (params.temperature = 7/10 ∧ params.top_p = 9/10 ∧ params.top_k = none ∧
       params.seed = none ∧ params.stop_sequences.getD [] = [] ∧
       params.extra_params.getD [] = [])) := by
  refine ⟨?_, ?_, ?_⟩
  · have hne : messages.isEmpty = false := by
      simpa [List.isEmpty_iff] using h
    simp [generate_chat, hne]
  · intro k
    rw [payloadOptions_getD, keys_buildOptions, keys_baseOptions]
    tauto
  · rw [payloadOptions_eq_none, buildOptions_eq_nil, baseOptions_eq_nil]
    tauto

/-- Witness for C4 on a one-message call with a non-default temperature
and an explicit seed: the exact payload is produced, and its `options`
key is present (the no-parameter condition fails). -/
theorem c4_witness :
    (generate_chat { session := true, is_available := true } [sampleMessage] "llama3"
        (some sampleParams) "5m" =
      .ok { model := "llama3", messages := [sampleMessage].map toOllamaMessage,
            stream := sampleParams.stream, keep_alive := "5m",
            options := payloadOptions sampleParams }) ∧
    (payloadOptions sampleParams = none ↔
      (sampleParams.temperature = 7/10 ∧ sampleParams.top_p = 9/10 ∧
       sampleParams.top_k = none ∧ sampleParams.seed = none ∧
       sampleParams.stop_sequences.getD [] = [] ∧
       sampleParams.extra_params.getD [] = [])) :=
  ⟨(c4_options_payload sampleParams [sampleMessage] "llama3" "5m"
      (List.cons_ne_nil _ _)).1,
   (c4_options_payload sampleParams [sampleMessage] "llama3" "5m"
      (List.cons_ne_nil _ _)).2.2⟩

end Plexus
